import Mathlib

/-!
Shallow embedding of the text-classification MLOps repository:
the simulated classify API route (POST handler of /api/classify) and the
browser page component handler (classifyText in app/page.tsx).

Conventions of the embedding:
* JavaScript numbers are modelled as rationals; the two Math.random()
  draws of the POST handler are passed in explicitly as parameters
  r1 and r2, each assumed to lie in [0, 1) where a claim needs it.
* request.json() is modelled by a ParseResult: a JS exception raised by
  an unparseable body becomes the .error case, a parsed body becomes
  .ok with the value of its text field (none models a missing field,
  i.e. undefined after destructuring).
* fetch from the page component is modelled by FetchOutcome: a thrown
  transport error, or a response carrying its ok flag and parsed body.
-/

/-- A parsed JSON value, as far as the classify route inspects it. -/
inductive JsonVal where
  | str (s : String)
  | num (q : ℚ)
  | bool (b : Bool)
  | null
  deriving DecidableEq, Repr

/-- Outcome of `await request.json()` followed by destructuring the text
field: a JS exception message, or the text field value (none = absent). -/
abbrev ParseResult := Except String (Option JsonVal)

/-- JS truthiness of the destructured text field, as tested by `!text`
in the route guard: undefined, null, false, 0 and "" are falsy. -/
def jsTruthy : Option JsonVal → Bool
  | none => false
  | some .null => false
  | some (.bool b) => b
  | some (.num q) => q != 0
  | some (.str s) => s != ""

/-- The test `typeof text === "string"` from the route guard. -/
def isStringType : Option JsonVal → Bool
  | some (.str _) => true
  | _ => false

/-- Body of a NextResponse.json payload produced by the route: either an
error object or a sentiment/confidence prediction object. -/
inductive ResponseBody where
  | error (msg : String)
  | prediction (sentiment : String) (confidence : ℚ)
  deriving DecidableEq, Repr

/-- An HTTP response of the route: status code and JSON body. -/
structure Response where
  status : Nat
  body : ResponseBody
  deriving DecidableEq, Repr

/-- True exactly on the prediction form of a response body. -/
def ResponseBody.isPrediction : ResponseBody → Bool
  | .prediction _ _ => true
  | .error _ => false

/-- The POST handler of the classify route. The body of the try block
destructures the parsed JSON, rejects a falsy or non-string text with a
400 error, then simulates a classification from the two Math.random()
draws r1 and r2; a JS exception from request.json() lands in the catch
block, which answers with a 500 error. -/
def POST (parsed : ParseResult) (r1 r2 : ℚ) : Response :=
  match parsed with
  | .error _ => ⟨500, .error "Erreur lors de la classification"⟩
  | .ok text =>
    if !jsTruthy text || !isStringType text then
      ⟨400, .error "Le texte est requis"⟩
    else
      let isPositive : Bool := decide (r1 > 0.5)
      let confidence : ℚ := 0.5 + r2 * 0.5
      ⟨200, .prediction (if isPositive then "positive" else "negative") confidence⟩

/-- Outcome of the fetch performed by the page component: a thrown
transport error, or a response with its ok flag and parsed JSON body. -/
inductive FetchOutcome where
  | transportError
  | response (ok : Bool) (body : ResponseBody)
  deriving DecidableEq, Repr

/-- The page state written by one run of classifyText: the error banner,
the prediction card content, and whether the fetch was performed. -/
structure ClientState where
  error : Option String
  prediction : Option ResponseBody
  fetched : Bool
  deriving DecidableEq, Repr

/-- The local validation message of the page component. -/
def validationMsg : String := "Veuillez entrer un texte à classifier"

/-- The generic service failure message of the page component. -/
def serviceErrorMsg : String := "Une erreur est survenue lors de la classification"

/-- The JS String.prototype.trim operation used by the page component:
strips leading and trailing whitespace characters. -/
def jsTrim (s : String) : String :=
  ⟨((s.data.dropWhile Char.isWhitespace).reverse.dropWhile
      Char.isWhitespace).reverse⟩

/-- The classifyText handler of the page component: a blank (trimmed
empty) textarea is rejected locally with the validation message and no
fetch; otherwise the text is sent, a thrown fetch or a non-ok response
sets the service failure message, and an ok response stores its body as
the prediction. -/
def classifyText (text : String) (svc : String → FetchOutcome) : ClientState :=
  if jsTrim text = "" then
    ⟨some validationMsg, none, false⟩
  else
    match svc text with
    | .transportError => ⟨some serviceErrorMsg, none, true⟩
    | .response ok body =>
      if ok then ⟨none, some body, true⟩
      else ⟨some serviceErrorMsg, none, true⟩

/-- A text field passes the route guard exactly when it is a non-empty
string value. -/
def validText (t : Option JsonVal) : Bool := jsTruthy t && isStringType t

theorem validText_iff (t : Option JsonVal) :
    validText t = true ↔ ∃ s, t = some (.str s) ∧ s ≠ "" := by
  constructor
  · intro h
    match t with
    | some (.str s) =>
      refine ⟨s, rfl, ?_⟩
      simpa [validText, jsTruthy, isStringType] using h
    | none | some .null | some (.bool _) | some (.num _) =>
      simp [validText, jsTruthy, isStringType] at h
  · rintro ⟨s, rfl, hs⟩
    simp [validText, jsTruthy, isStringType, hs]

/-- C1: a classify request whose text field is empty or not a string is
answered with the 400 validation error, and the response is the same for
every pair of random draws: no model computation influences it. -/
theorem POST_rejects_invalid_text (t : Option JsonVal)
    (h : jsTruthy t = false ∨ isStringType t = false) (r1 r2 : ℚ) :
    POST (.ok t) r1 r2 = ⟨400, .error "Le texte est requis"⟩ := by
  rcases h with h | h <;> simp [POST, h]

/-- Witness for C1 at the empty string and arbitrary draws. -/
theorem POST_rejects_invalid_text_witness :
    POST (.ok (some (.str ""))) 0 1 = ⟨400, .error "Le texte est requis"⟩ :=
  POST_rejects_invalid_text (some (.str "")) (Or.inl (by decide)) 0 1

/-- C2: every successful classify response carries a confidence in the
closed interval [0, 1], given that the random draw lies in [0, 1). -/
theorem POST_confidence_in_unit_interval (t : Option JsonVal) (r1 r2 : ℚ)
    (h0 : 0 ≤ r2) (h1 : r2 < 1) (sent : String) (conf : ℚ)
    (hp : POST (.ok t) r1 r2 = ⟨200, .prediction sent conf⟩) :
    0 ≤ conf ∧ conf ≤ 1 := by
  by_cases hv : (!jsTruthy t || !isStringType t) = true
  · simp [POST, hv] at hp
  · simp only [POST, hv, Bool.false_eq_true, if_false,
      Response.mk.injEq, ResponseBody.prediction.injEq] at hp
    obtain ⟨-, -, hc⟩ := hp
    constructor <;> [skip; skip] <;> [linarith [hc.symm]; linarith [hc.symm]]

/-- Witness for C2 at a concrete valid request with both draws zero. -/
theorem POST_confidence_in_unit_interval_witness :
    0 ≤ (0.5 + (0 : ℚ) * 0.5) ∧ (0.5 + (0 : ℚ) * 0.5) ≤ 1 :=
  POST_confidence_in_unit_interval (some (.str "bonjour")) 0 0
    (le_refl 0) zero_lt_one
    (if decide ((0 : ℚ) > 0.5) then "positive" else "negative")
    (0.5 + (0 : ℚ) * 0.5) rfl

/-- C3: the handler is not deterministic in its input: the same request
text answered under two different Math.random() draws yields two
different predictions, so repeated classify() calls on identical input
disagree. -/
theorem POST_same_input_different_predictions :
    POST (.ok (some (.str "hello"))) 0.25 0 ≠
      POST (.ok (some (.str "hello"))) 0.75 0 := by
  have h1 : ¬ ((0.25 : ℚ) > 0.5) := by norm_num
  have h2 : ((0.75 : ℚ) > 0.5) := by norm_num
  simp [POST, jsTruthy, isStringType, h1, h2]

/-- C4: the reported confidence is the affine image of a fresh random
draw, not any function of the input or of a stored classifier: the same
request text receives confidence 0.5 under draw 0 and 0.75 under draw
0.5. -/
theorem POST_confidence_is_random_draw :
    POST (.ok (some (.str "hello"))) 0 0 =
      ⟨200, .prediction "negative" 0.5⟩ ∧
    POST (.ok (some (.str "hello"))) 0 0.5 =
      ⟨200, .prediction "negative" 0.75⟩ := by
  have h1 : ¬ ((0 : ℚ) > 0.5) := by norm_num
  have h2 : (0.5 : ℚ) + 0.5 * 0.5 = 0.75 := by norm_num
  constructor <;> simp [POST, jsTruthy, isStringType, h1, h2]

/-- C5 counterexample: a request whose body fails to parse is answered
with status 500, which is not a client error (4xx). -/
theorem POST_malformed_returns_500_not_4xx :
    (POST (.error "SyntaxError: Unexpected token") 0 0).status = 500 ∧
    ¬ ((POST (.error "SyntaxError: Unexpected token") 0 0).status < 500) := by
  decide

/-- C5 amended: every malformed classify request is answered from the
catch block with the 500 server error response, for all random draws:
an error response, never a crash. -/
theorem POST_malformed_returns_500 (e : String) (r1 r2 : ℚ) :
    POST (.error e) r1 r2 = ⟨500, .error "Erreur lors de la classification"⟩ :=
  rfl

/-- C6: the handler is total: every request, including one whose body
fails to parse or whose field is invalid, receives some HTTP response,
with status 200, 400 or 500; no input escapes the case analysis. -/
theorem POST_always_responds (parsed : ParseResult) (r1 r2 : ℚ) :
    (POST parsed r1 r2).status = 200 ∨ (POST parsed r1 r2).status = 400 ∨
      (POST parsed r1 r2).status = 500 := by
  rcases parsed with e | t
  · right; right; rfl
  · by_cases hv : (!jsTruthy t || !isStringType t) = true
    · right; left; simp [POST, hv]
    · left; simp [POST, hv]

/-- C7: the page component shows two distinct user-visible failure
states: the validation message appears exactly on blank input, and the
service failure message appears exactly when non-blank input meets a
thrown fetch or a non-ok response, and the two messages differ. -/
theorem classifyText_distinct_error_states (text : String)
    (svc : String → FetchOutcome) :
    validationMsg ≠ serviceErrorMsg ∧
    ((classifyText text svc).error = some validationMsg ↔ jsTrim text = "") ∧
    ((classifyText text svc).error = some serviceErrorMsg ↔
      jsTrim text ≠ "" ∧
        (svc text = .transportError ∨ ∃ b, svc text = .response false b)) := by
  refine ⟨by decide, ?_, ?_⟩
  · by_cases ht : jsTrim text = ""
    · simp [classifyText, ht]
    · rcases hsvc : svc text with _ | ⟨ok, body⟩
      · simp [classifyText, ht, hsvc, validationMsg, serviceErrorMsg]
      · rcases ok <;>
          simp [classifyText, ht, hsvc, validationMsg, serviceErrorMsg]
  · by_cases ht : jsTrim text = ""
    · simp [classifyText, ht, validationMsg, serviceErrorMsg]
    · rcases hsvc : svc text with _ | ⟨ok, body⟩
      · simp [classifyText, ht, hsvc]
      · rcases ok <;> simp [classifyText, ht, hsvc]

/-- C8: the prediction does not depend on the request text: two valid
requests with different texts but the same random draws receive the
same response. -/
theorem POST_independent_of_text (s1 s2 : String)
    (h1 : s1 ≠ "") (h2 : s2 ≠ "") (r1 r2 : ℚ) :
    POST (.ok (some (.str s1))) r1 r2 = POST (.ok (some (.str s2))) r1 r2 := by
  simp [POST, jsTruthy, isStringType, h1, h2]

/-- Witness for C8 at two different concrete texts. -/
theorem POST_independent_of_text_witness :
    POST (.ok (some (.str "great"))) 0 0 = POST (.ok (some (.str "awful"))) 0 0 :=
  POST_independent_of_text "great" "awful" (by decide) (by decide) 0 0

/-- C9: every successful classify response carries a confidence in
[0.5, 1): at least one half and strictly below one, given that the
random draw lies in [0, 1). -/
theorem POST_confidence_at_least_half (t : Option JsonVal) (r1 r2 : ℚ)
    (h0 : 0 ≤ r2) (h1 : r2 < 1) (sent : String) (conf : ℚ)
    (hp : POST (.ok t) r1 r2 = ⟨200, .prediction sent conf⟩) :
    0.5 ≤ conf ∧ conf < 1 := by
  by_cases hv : (!jsTruthy t || !isStringType t) = true
  · simp [POST, hv] at hp
  · simp only [POST, hv, Bool.false_eq_true, if_false,
      Response.mk.injEq, ResponseBody.prediction.injEq] at hp
    obtain ⟨-, -, hc⟩ := hp
    constructor <;> [skip; skip] <;> [linarith [hc.symm]; linarith [hc.symm]]

/-- Witness for C9 at a concrete valid request with both draws zero. -/
theorem POST_confidence_at_least_half_witness :
    0.5 ≤ (0.5 + (0 : ℚ) * 0.5) ∧ (0.5 + (0 : ℚ) * 0.5) < 1 :=
  POST_confidence_at_least_half (some (.str "ok")) 0 0
    (le_refl 0) zero_lt_one
    (if decide ((0 : ℚ) > 0.5) then "positive" else "negative")
    (0.5 + (0 : ℚ) * 0.5) rfl

/-- C10: a non-empty whitespace-only text passes the route guard and is
classified with a 200 prediction response, while the page component
rejects the same text locally with the validation message and performs
no fetch. -/
theorem whitespace_only_server_accepts_client_rejects (s : String)
    (hne : s ≠ "") (hws : jsTrim s = "") (r1 r2 : ℚ)
    (svc : String → FetchOutcome) :
    (POST (.ok (some (.str s))) r1 r2).status = 200 ∧
    (POST (.ok (some (.str s))) r1 r2).body.isPrediction = true ∧
    (classifyText s svc).fetched = false ∧
    (classifyText s svc).error = some validationMsg := by
  refine ⟨?_, ?_, ?_, ?_⟩
  · simp [POST, jsTruthy, isStringType, hne]
  · simp [POST, jsTruthy, isStringType, hne, ResponseBody.isPrediction]
  · simp [classifyText, hws]
  · simp [classifyText, hws]

/-- Witness for C10 at the single-space text. -/
theorem whitespace_only_server_accepts_client_rejects_witness :
    (POST (.ok (some (.str " "))) 0 0).status = 200 ∧
    (POST (.ok (some (.str " "))) 0 0).body.isPrediction = true ∧
    (classifyText " " (fun _ => .transportError)).fetched = false ∧
    (classifyText " " (fun _ => .transportError)).error = some validationMsg :=
  whitespace_only_server_accepts_client_rejects " " (by decide) (by decide) 0 0
    (fun _ => .transportError)
